import Mathlib

/-!
Verification of the Salesforce client guard layer of this repository.

Shallow embedding of `src/shared/salesforce_client.py` (API usage tracker,
write-back confirmation protocol, rate-limit check, backend error
classification, result normalization) and of two tool-layer endpoints,
`create_task` from `src/mcp_servers/salesforce_crm/tools/activities.py` and
`get_case` from `src/mcp_servers/salesforce_crm/tools/cases.py`.

Modelling conventions:
* JSON-like Python dict values are an inductive `Value`; a record (dict with
  string keys) is an association list with distinct keys.
* The mutable per-session `ApiUsageTracker` is passed explicitly; each client
  operation returns its outcome together with the updated tracker and the
  number of calls it dispatched to the `simple_salesforce` backend.
* The backend collaborator (`self._sf`) is a parameter: either the JSON it
  would return or the message text of the `SalesforceError` it would raise.
* Python exceptions are explicit result variants: `Outcome` for the client
  layer, `Except PyExn` for the tool layer (an `Except.error` is an
  exception escaping the tool function to the transport).
* `usage_percent` uses exact rational arithmetic in place of Python floats;
  at every value the claims touch the two agree.
* The wall-clock `session_start` field and the SOQL/SOSL query strings are
  omitted: they only flow to the external transport, never into the logic
  modelled here.
-/

namespace SFC

/-- A JSON-like value held in a Salesforce record (a Python dict value). -/
inductive Value where
  | vstr : String → Value
  | vint : Int → Value
  | vrat : ℚ → Value
  | vbool : Bool → Value
  | vnull : Value
  | vobj : List (String × Value) → Value
  | varr : List Value → Value

/-- A record: a Python dict with string keys. -/
abbrev Record := List (String × Value)

/-- `d.pop(k, None)`: remove the entry for key `k` (dict keys are distinct). -/
def popKey (k : String) (r : Record) : Record :=
  r.filter (fun kv => kv.1 != k)

/-- `d.get(k)`: look up key `k`. -/
def getKey (r : Record) (k : String) : Option Value :=
  (r.find? (fun kv => kv.1 == k)).map (fun kv => kv.2)

/-- Does `needle` begin `hay`? (character-list version, executable) -/
def beginsWith : List Char → List Char → Bool
  | [], _ => true
  | _ :: _, [] => false
  | a :: as, b :: bs => a == b && beginsWith as bs

/-- Does `hay` contain `needle` as a contiguous run? -/
def hasSubList (needle : List Char) : List Char → Bool
  | [] => needle.isEmpty
  | c :: rest => beginsWith needle (c :: rest) || hasSubList needle rest

/-- Python `pat in msg` on strings. -/
def strContains (msg pat : String) : Bool :=
  hasSubList pat.data msg.data

/-- Python `s.lower()` (the object names used here are ASCII). -/
def strLower (s : String) : String :=
  ⟨s.data.map Char.toLower⟩

/-- `ApiUsageTracker` of `salesforce_client.py` lines 27-63 (the wall-clock
`session_start` field is omitted; no logic reads it). -/
structure ApiUsageTracker where
  calls_made : Nat
  daily_limit : Nat
  warning_threshold : ℚ
deriving DecidableEq

/-- `record_call`: increment `calls_made`. -/
def ApiUsageTracker.record_call (t : ApiUsageTracker) : ApiUsageTracker :=
  { t with calls_made := t.calls_made + 1 }

/-- `usage_percent`: `(calls_made / daily_limit) * 100` when the limit is
positive, else `0`. -/
def ApiUsageTracker.usage_percent (t : ApiUsageTracker) : ℚ :=
  if 0 < t.daily_limit then ((t.calls_made : ℚ) / (t.daily_limit : ℚ)) * 100 else 0

/-- `is_warning`: usage at or above the warning threshold. -/
def ApiUsageTracker.is_warning (t : ApiUsageTracker) : Bool :=
  decide (t.warning_threshold * 100 ≤ t.usage_percent)

/-- `is_exceeded`: `calls_made >= daily_limit`. -/
def ApiUsageTracker.is_exceeded (t : ApiUsageTracker) : Bool :=
  decide (t.daily_limit ≤ t.calls_made)

/-- `round(x, 1)`. Python rounds half to even; the difference to round half
up is only visible at exact odd multiples of `1/20`, which no claim touches. -/
def roundTo1 (x : ℚ) : ℚ :=
  ((round (x * 10) : ℤ) : ℚ) / 10

/-- The dict returned by `get_status`. -/
structure UsageStatus where
  calls_made : Nat
  daily_limit : Nat
  usage_percent : ℚ
  is_warning : Bool
  is_exceeded : Bool
deriving DecidableEq

/-- `get_status`: the usage snapshot dict. -/
def ApiUsageTracker.get_status (t : ApiUsageTracker) : UsageStatus :=
  ⟨t.calls_made, t.daily_limit, roundTo1 t.usage_percent, t.is_warning, t.is_exceeded⟩

/-- `SalesforceClientError(code, message, details)`; `details` defaults to the
empty dict and, in this repository, is only ever passed the usage snapshot. -/
structure SalesforceClientError where
  code : String
  message : String
  details : Option UsageStatus
deriving DecidableEq

/-- The payload of a raised `WriteBackConfirmationError`: the operation
string and the details dict (`record_id` is present for updates only). -/
structure WriteDetails where
  object : String
  record_id : Option String
  data : Record

/-- The non-fatal warning dict built by `_check_rate_limit`. -/
structure RateLimitWarning where
  code : String
  message : String
  details : UsageStatus
deriving DecidableEq

/-- The `RATE_LIMIT_EXCEEDED` error raised by `_check_rate_limit`. -/
def rateLimitExceededError (t : ApiUsageTracker) : SalesforceClientError :=
  ⟨"RATE_LIMIT_EXCEEDED",
   "Salesforce API daily limit exceeded. Please try again later.",
   some t.get_status⟩

/-- The `RATE_LIMIT_WARNING` payload built by `_check_rate_limit`. -/
def rateLimitWarning (t : ApiUsageTracker) : RateLimitWarning :=
  ⟨"RATE_LIMIT_WARNING",
   "API usage at " ++ toString (round t.usage_percent : ℤ) ++ "% of daily limit.",
   t.get_status⟩

/-- `_check_rate_limit` (lines 130-146): raise when exceeded, return a
warning dict when in the warning band, else return `None`. -/
def checkRateLimit (t : ApiUsageTracker) :
    Except SalesforceClientError (Option RateLimitWarning) :=
  if t.is_exceeded then .error (rateLimitExceededError t)
  else if t.is_warning then .ok (some (rateLimitWarning t))
  else .ok none

/-- Result of one client operation: its outcome as seen by the caller.
`confirmationRequired op d` is a raised `WriteBackConfirmationError(op, d)`;
`clientError e` is a raised `SalesforceClientError`. -/
inductive Outcome (α : Type) where
  | ok : α → Outcome α
  | clientError : SalesforceClientError → Outcome α
  | confirmationRequired : String → WriteDetails → Outcome α

/-- The error code carried by a `clientError` outcome, if any. -/
def Outcome.errorCode {α : Type} : Outcome α → Option String
  | .clientError e => some e.code
  | _ => none

/-- One client operation, together with the tracker it leaves behind and how
many calls it dispatched to the `simple_salesforce` backend. -/
structure OpResult (α : Type) where
  outcome : Outcome α
  usage : ApiUsageTracker
  backend_calls : Nat

/-- What the backend collaborator (`self._sf`) would do for the one call an
operation dispatches: return `α`, or raise a `SalesforceError` whose
`str(e)` is the given message. -/
inductive BackendResult (α : Type) where
  | ok : α → BackendResult α
  | err : String → BackendResult α

/-- Metadata stripping applied to an object inside a nested list
(`query` lines 174-176). -/
def stripListItem : Value → Value
  | .vobj fields => .vobj (popKey "attributes" fields)
  | v => v

/-- Metadata stripping applied to one field value of a record
(`query` lines 170-176): one level into nested objects and lists. -/
def stripFieldValue : Value → Value
  | .vobj fields => .vobj (popKey "attributes" fields)
  | .varr items => .varr (items.map stripListItem)
  | v => v

/-- The normalization `query` applies to each returned record
(lines 166-176): pop the top-level `attributes` key, then strip one level of
nested objects and of objects inside nested lists. -/
def stripRecordDeep (r : Record) : Record :=
  (popKey "attributes" r).map (fun kv => (kv.1, stripFieldValue kv.2))

/-- The normalization `query_all`, `search` and `get_record` apply: pop the
top-level `attributes` key only. -/
def stripRecordTop (r : Record) : Record :=
  popKey "attributes" r

/-- `query` (lines 148-189): rate check, record the call, dispatch, normalize
each record, classify backend error text. -/
def query (usage : ApiUsageTracker) (backend : BackendResult (List Record)) :
    OpResult (List Record) :=
  match checkRateLimit usage with
  | .error e => ⟨.clientError e, usage, 0⟩
  | .ok _ =>
    let usage1 := usage.record_call
    match backend with
    | .ok records => ⟨.ok (records.map stripRecordDeep), usage1, 1⟩
    | .err msg =>
      if strContains msg "INSUFFICIENT_ACCESS" || strContains msg "INVALID_SESSION_ID" then
        ⟨.clientError ⟨"AUTH_ERROR", "Authentication failed: " ++ msg, none⟩, usage1, 1⟩
      else if strContains msg "REQUEST_LIMIT_EXCEEDED" then
        ⟨.clientError ⟨"RATE_LIMIT_EXCEEDED", "Salesforce API rate limit exceeded.", none⟩,
         usage1, 1⟩
      else if strContains msg "QUERY_TOO_COMPLICATED" then
        ⟨.clientError ⟨"QUERY_TOO_COMPLEX",
           "Query is too complex. Try adding filters to narrow results.", none⟩, usage1, 1⟩
      else
        ⟨.clientError ⟨"SF_API_ERROR", "SOQL query failed: " ++ msg, none⟩, usage1, 1⟩

/-- `MAX_QUERY_RESULTS` (line 18), the default `max_results` of `query_all`. -/
def MAX_QUERY_RESULTS : Nat := 2000

/-- `query_all` (lines 191-219): rate check, record the call, dispatch, strip
the top-level metadata key, cap the result list at `max_results`. -/
def query_all (usage : ApiUsageTracker) (backend : BackendResult (List Record))
    (max_results : Nat) : OpResult (List Record) :=
  match checkRateLimit usage with
  | .error e => ⟨.clientError e, usage, 0⟩
  | .ok _ =>
    let usage1 := usage.record_call
    match backend with
    | .ok records =>
      let records1 := records.map stripRecordTop
      let records2 := if max_results < records1.length
                      then records1.take max_results else records1
      ⟨.ok records2, usage1, 1⟩
    | .err msg =>
      ⟨.clientError ⟨"SF_API_ERROR", "SOQL query failed: " ++ msg, none⟩, usage1, 1⟩

/-- `search` (lines 221-240): rate check, record the call, dispatch, strip
the top-level metadata key of each search record. -/
def search (usage : ApiUsageTracker) (backend : BackendResult (List Record)) :
    OpResult (List Record) :=
  match checkRateLimit usage with
  | .error e => ⟨.clientError e, usage, 0⟩
  | .ok _ =>
    let usage1 := usage.record_call
    match backend with
    | .ok records => ⟨.ok (records.map stripRecordTop), usage1, 1⟩
    | .err msg =>
      ⟨.clientError ⟨"SF_API_ERROR", "SOSL search failed: " ++ msg, none⟩, usage1, 1⟩

/-- The `{id, success}` dict returned by `sf_object.create(data)`. -/
structure CreateResult where
  id : String
  success : Bool
deriving DecidableEq

/-- `create_record` (lines 242-286): unconfirmed calls raise the write-back
confirmation signal before anything else; then rate check, record the call,
dispatch, classify backend error text. -/
def create_record (usage : ApiUsageTracker) (backend : BackendResult CreateResult)
    (sobject : String) (data : Record) (confirmed : Bool) : OpResult CreateResult :=
  if !confirmed then
    ⟨.confirmationRequired ("create_" ++ strLower sobject) ⟨sobject, none, data⟩, usage, 0⟩
  else
    match checkRateLimit usage with
    | .error e => ⟨.clientError e, usage, 0⟩
    | .ok _ =>
      let usage1 := usage.record_call
      match backend with
      | .ok result => ⟨.ok result, usage1, 1⟩
      | .err msg =>
        if strContains msg "INSUFFICIENT_ACCESS" then
          ⟨.clientError ⟨"PERMISSION_DENIED",
             "Insufficient permissions to create " ++ sobject ++ ": " ++ msg, none⟩,
           usage1, 1⟩
        else
          ⟨.clientError ⟨"SF_API_ERROR",
             "Failed to create " ++ sobject ++ ": " ++ msg, none⟩, usage1, 1⟩

/-- `update_record` (lines 288-336): unconfirmed calls raise the write-back
confirmation signal before anything else; then rate check, record the call,
dispatch (returns `True` on success), classify backend error text. -/
def update_record (usage : ApiUsageTracker) (backend : BackendResult Unit)
    (sobject record_id : String) (data : Record) (confirmed : Bool) : OpResult Bool :=
  if !confirmed then
    ⟨.confirmationRequired ("update_" ++ strLower sobject)
       ⟨sobject, some record_id, data⟩, usage, 0⟩
  else
    match checkRateLimit usage with
    | .error e => ⟨.clientError e, usage, 0⟩
    | .ok _ =>
      let usage1 := usage.record_call
      match backend with
      | .ok _ => ⟨.ok true, usage1, 1⟩
      | .err msg =>
        if strContains msg "NOT_FOUND" || strContains msg "ENTITY_IS_DELETED" then
          ⟨.clientError ⟨"NOT_FOUND",
             sobject ++ " record " ++ record_id ++ " not found.", none⟩, usage1, 1⟩
        else if strContains msg "INSUFFICIENT_ACCESS" then
          ⟨.clientError ⟨"PERMISSION_DENIED",
             "Insufficient permissions to update " ++ sobject ++ ": " ++ msg, none⟩,
           usage1, 1⟩
        else
          ⟨.clientError ⟨"SF_API_ERROR",
             "Failed to update " ++ sobject ++ ": " ++ msg, none⟩, usage1, 1⟩

/-- `get_record` (lines 338-360): rate check, record the call, dispatch,
strip the top-level metadata key, classify backend error text. -/
def get_record (usage : ApiUsageTracker) (backend : BackendResult Record)
    (sobject record_id : String) : OpResult Record :=
  match checkRateLimit usage with
  | .error e => ⟨.clientError e, usage, 0⟩
  | .ok _ =>
    let usage1 := usage.record_call
    match backend with
    | .ok result => ⟨.ok (stripRecordTop result), usage1, 1⟩
    | .err msg =>
      if strContains msg "NOT_FOUND" then
        ⟨.clientError ⟨"NOT_FOUND",
           sobject ++ " record " ++ record_id ++ " not found.", none⟩, usage1, 1⟩
      else
        ⟨.clientError ⟨"SF_API_ERROR",
           "Failed to retrieve " ++ sobject ++ ": " ++ msg, none⟩, usage1, 1⟩

/-! Tool layer (`src/mcp_servers/salesforce_crm/tools/`). -/

/-- A Python exception escaping a tool function to the transport: the two
client exception classes, `KeyError` from a plain dict subscript, and
pydantic `ValidationError` from a model construction. -/
inductive PyExn where
  | writeBackConfirmationError : String → WriteDetails → PyExn
  | salesforceClientError : SalesforceClientError → PyExn
  | keyError : String → PyExn
  | validationError : String → PyExn

/-- The class name of a raised exception (what an `except C` clause matches). -/
def PyExn.className : PyExn → String
  | .writeBackConfirmationError _ _ => "WriteBackConfirmationError"
  | .salesforceClientError _ => "SalesforceClientError"
  | .keyError _ => "KeyError"
  | .validationError _ => "ValidationError"

/-- The names `src/shared/salesforce_client.py` defines at module level. -/
def salesforceClientModuleNames : List String :=
  ["MAX_QUERY_RESULTS", "logger", "RATE_LIMIT_WARNING_PERCENT", "API_VERSION",
   "ApiUsageTracker", "SalesforceClientError", "WriteBackConfirmationError",
   "SalesforceClient", "create_client"]

/-- The exception class name that `tools/activities.py` imports from
`shared.salesforce_client` (line 15) and that its `create_task` handler
catches (line 150). -/
def activitiesConfirmationHandlerClass : String := "WriteBackConfirmationRequired"

/-- `UsageStatus` rendered as the JSON `details` dict. -/
def statusToValue (s : UsageStatus) : Value :=
  .vobj [("calls_made", .vint s.calls_made), ("daily_limit", .vint s.daily_limit),
         ("usage_percent", .vrat s.usage_percent), ("is_warning", .vbool s.is_warning),
         ("is_exceeded", .vbool s.is_exceeded)]

/-- `SalesforceClientError.to_error_response` (lines 75-80): `details` is
included only when non-empty. -/
def SalesforceClientError.to_error_response (e : SalesforceClientError) : Value :=
  match e.details with
  | none =>
    .vobj [("error", .vobj [("code", .vstr e.code), ("message", .vstr e.message)])]
  | some s =>
    .vobj [("error", .vobj [("code", .vstr e.code), ("message", .vstr e.message),
                            ("details", statusToValue s)])]

/-- Python truthiness of a JSON-like value. -/
def valueTruthy : Value → Bool
  | .vstr s => s != ""
  | .vint n => n != 0
  | .vrat q => q != 0
  | .vbool b => b
  | .vnull => false
  | .vobj fields => !fields.isEmpty
  | .varr items => !items.isEmpty

/-- Python truthiness of an optional string (`None` and `""` are falsy). -/
def truthy : Option String → Bool
  | some s => s != ""
  | none => false

/-- `if opt: data[k] = opt` — the optional-field pattern of `create_task`. -/
def optField (k : String) : Option String → Record
  | some s => if s == "" then [] else [(k, .vstr s)]
  | none => []

/-- `create_task` (`tools/activities.py` lines 103-163). The `try` body calls
`create_record("Task", task_data, confirmed)`; the handlers are
`except WriteBackConfirmationRequired` and `except SalesforceClientError`.
A raised exception is caught only when its class name matches a handler;
`shared.salesforce_client` defines no `WriteBackConfirmationRequired`, so the
confirmation exception (class `WriteBackConfirmationError`) matches neither
handler and escapes. -/
def create_task (usage : ApiUsageTracker) (backend : BackendResult CreateResult)
    (subject : String) (description due_date related_to_id who_id : Option String)
    (priority : String) (confirmed : Bool) :
    Except PyExn Value × ApiUsageTracker :=
  let task_data : Record :=
    [("Subject", .vstr subject), ("Priority", .vstr priority),
     ("Status", .vstr "Not Started")]
    ++ optField "Description" description ++ optField "ActivityDate" due_date
    ++ optField "WhatId" related_to_id ++ optField "WhoId" who_id
  match create_record usage backend "Task" task_data confirmed with
  | ⟨.ok result, u, _⟩ =>
    (.ok (.vobj [("task_id", .vstr result.id), ("success", .vbool result.success),
                 ("message", .vstr ("Task \x27" ++ subject ++ "\x27 created successfully."))]),
     u)
  | ⟨.confirmationRequired op d, u, _⟩ =>
    let raised := PyExn.writeBackConfirmationError op d
    if raised.className == activitiesConfirmationHandlerClass then
      (.ok (.vobj [("task_id", .vnull), ("success", .vbool false),
                   ("message", .vstr ("Please confirm: Create task \x27" ++ subject
                     ++ "\x27 with priority \x27" ++ priority ++ "\x27"
                     ++ (if truthy due_date then ", due " ++ due_date.getD "" else "")
                     ++ "? Call again with confirmed=true to proceed."))]), u)
    else
      (.error raised, u)
  | ⟨.clientError e, u, _⟩ => (.ok e.to_error_response, u)

/-- `CaseSummary` of `src/shared/models.py` lines 65-78. The pydantic
`created_date: datetime` field (line 75) is carried as the raw JSON value it
was validated from; the validator itself is the third-party pydantic
datetime parser, abstracted as the `validCreatedDate` parameter of
`recordToCase`. The remaining fields are strings or optional strings as
annotated. `recent_comments` is assigned after construction, which pydantic
does not re-validate (`validate_assignment` is off), so it carries the raw
values the comprehension kept. -/
structure CaseSummary where
  id : String
  case_number : String
  subject : String
  description : Option String
  status : String
  priority : String
  case_type : Option String
  created_date : Value
  owner_name : Option String
  account_name : Option String
  recent_comments : List Value

/-- `record.get(k, d)` for a string field. -/
def getStrD (r : Record) (k d : String) : String :=
  match getKey r k with
  | some (.vstr s) => s
  | _ => d

/-- `record.get(k)` for an optional string field. -/
def getStrOpt (r : Record) (k : String) : Option String :=
  match getKey r k with
  | some (.vstr s) => some s
  | _ => none

/-- `(record.get(k) or {}).get("Name") if isinstance(..., dict) else None`. -/
def nestedName (r : Record) (k : String) : Option String :=
  match getKey r k with
  | some (.vobj fields) => getStrOpt fields "Name"
  | _ => none

/-- pydantic validation of a raw dict value against a `str` annotation,
within the JSON value universe: only a string passes. `none` stands for an
absent key, which the `record.get(k, "")` default turns into `""`. -/
def strFieldOk : Option Value → Bool
  | none => true
  | some (.vstr _) => true
  | _ => false

/-- pydantic validation against `str | None`: an absent key and JSON null
become `None`; otherwise only a string passes. -/
def optStrFieldOk : Option Value → Bool
  | none => true
  | some .vnull => true
  | some (.vstr _) => true
  | _ => false

/-- The raw value handed to the `owner_name`/`account_name` fields:
`(record.get(k) or {}).get("Name")` when the value is a dict, else `None`. -/
def nestedNameRaw (r : Record) (k : String) : Option Value :=
  match getKey r k with
  | some (.vobj fields) => getKey fields "Name"
  | _ => none

/-- `_record_to_case` (`tools/cases.py` lines 26-42) with its raising paths:
the plain subscript `record["Id"]` raises `KeyError` when the key is absent,
and the pydantic `CaseSummary(...)` construction raises `ValidationError`
when a field value fails its annotation. `validCreatedDate` abstracts the
third-party pydantic datetime validator (`created_date: datetime`,
`models.py` line 75), applied to the raw `record.get("CreatedDate", "")`
value. -/
def recordToCase (validCreatedDate : Value → Bool) (record : Record) :
    Except PyExn CaseSummary :=
  match getKey record "Id" with
  | none => .error (.keyError "Id")
  | some idv =>
    if strFieldOk (some idv)
        && strFieldOk (getKey record "CaseNumber")
        && strFieldOk (getKey record "Subject")
        && optStrFieldOk (getKey record "Description")
        && strFieldOk (getKey record "Status")
        && strFieldOk (getKey record "Priority")
        && optStrFieldOk (getKey record "Type")
        && validCreatedDate ((getKey record "CreatedDate").getD (.vstr ""))
        && optStrFieldOk (nestedNameRaw record "Owner")
        && optStrFieldOk (nestedNameRaw record "Account")
    then
      .ok { id := getStrD record "Id" ""
            case_number := getStrD record "CaseNumber" ""
            subject := getStrD record "Subject" ""
            description := getStrOpt record "Description"
            status := getStrD record "Status" ""
            priority := getStrD record "Priority" ""
            case_type := getStrOpt record "Type"
            created_date := (getKey record "CreatedDate").getD (.vstr "")
            owner_name := nestedName record "Owner"
            account_name := nestedName record "Account"
            recent_comments := [] }
    else .error (.validationError "CaseSummary")

/-- An optional string rendered as JSON. -/
def optStrValue : Option String → Value
  | some s => .vstr s
  | none => .vnull

/-- `CaseSummary.model_dump()`. -/
def caseToValue (c : CaseSummary) : Value :=
  .vobj [("id", .vstr c.id), ("case_number", .vstr c.case_number),
         ("subject", .vstr c.subject), ("description", optStrValue c.description),
         ("status", .vstr c.status), ("priority", .vstr c.priority),
         ("type", optStrValue c.case_type), ("created_date", c.created_date),
         ("owner_name", optStrValue c.owner_name),
         ("account_name", optStrValue c.account_name),
         ("recent_comments", .varr c.recent_comments)]

/-- `ErrorResponse(code, message).model_dump()` (`shared/models.py`). -/
def errorResponseValue (code message : String) : Value :=
  .vobj [("code", .vstr code), ("message", .vstr message), ("details", .vnull)]

/-- The tail of the `try` block of `get_case` once the case query has returned
records (`tools/cases.py` lines 72-95): empty result gives the NOT_FOUND
payload; otherwise build the summary — whose `KeyError`/`ValidationError`
raising paths match no except clause and escape — then fetch recent
comments, the inner `except SalesforceClientError` swallowing a comments
failure. -/
def get_case_with_records (validCreatedDate : Value → Bool)
    (u1 : ApiUsageTracker) (backendComments : BackendResult (List Record))
    (case_id case_number : Option String) (records : List Record) :
    Except PyExn Value × ApiUsageTracker :=
  match records with
  | [] =>
    let identifier := (if truthy case_id then case_id else case_number).getD ""
    (.ok (errorResponseValue "NOT_FOUND"
           ("Case \x27" ++ identifier ++ "\x27 not found.")), u1)
  | r0 :: _ =>
    match recordToCase validCreatedDate r0 with
    | .error exn => (.error exn, u1)
    | .ok case0 =>
      match query u1 backendComments with
      | ⟨.ok comment_records, u2, _⟩ =>
        let comments := comment_records.filterMap (fun c =>
          match getKey c "CommentBody" with
          | some v => if valueTruthy v then some v else none
          | none => none)
        (.ok (.vobj [("case", caseToValue { case0 with recent_comments := comments })]), u2)
      | ⟨.clientError _, u2, _⟩ =>
        (.ok (.vobj [("case", caseToValue case0)]), u2)
      | ⟨.confirmationRequired op d, u2, _⟩ =>
        (.error (.writeBackConfirmationError op d), u2)

/-- `get_case` (`tools/cases.py` lines 45-98). Two backend interactions: the
case query and the comments query (its SOQL uses `records[0]["Id"]`, which
only flows to the transport and, the summary construction having succeeded,
cannot itself raise). Handlers: the inner and outer
`except SalesforceClientError`; no handler names the confirmation class,
`KeyError` or `ValidationError`, so those exceptions escape (`query` never
raises the confirmation one). -/
def get_case (validCreatedDate : Value → Bool) (usage : ApiUsageTracker)
    (backendCase backendComments : BackendResult (List Record))
    (case_id case_number : Option String) :
    Except PyExn Value × ApiUsageTracker :=
  if !truthy case_id && !truthy case_number then
    (.ok (errorResponseValue "INVALID_INPUT" "Either case_id or case_number is required."),
     usage)
  else
    match query usage backendCase with
    | ⟨.clientError e, u, _⟩ => (.ok e.to_error_response, u)
    | ⟨.confirmationRequired op d, u, _⟩ =>
      (.error (.writeBackConfirmationError op d), u)
    | ⟨.ok records, u1, _⟩ =>
      get_case_with_records validCreatedDate u1 backendComments
        case_id case_number records

/-! Shared definitions and lemmas for the verification below. -/

/-- Apply `record_call` n times. -/
def recordCalls (t : ApiUsageTracker) : Nat → ApiUsageTracker
  | 0 => t
  | n + 1 => (recordCalls t n).record_call

/-- A fresh tracker with the source defaults: `daily_limit=100_000`,
`warning_threshold=0.80`, no calls made. -/
def defaultTracker : ApiUsageTracker := ⟨0, 100000, 4/5⟩

/-- A fresh tracker with `daily_limit=0`: exceeded from the start. -/
def zeroLimitTracker : ApiUsageTracker := ⟨0, 0, 4/5⟩

/-- The tracker of the usage-band scenario: `daily_limit=10`,
`warning_threshold=0.8`. -/
def demoTracker : ApiUsageTracker := ⟨0, 10, 4/5⟩

lemma checkRateLimit_exceeded (t : ApiUsageTracker) (h : t.is_exceeded = true) :
    checkRateLimit t = .error (rateLimitExceededError t) := by
  simp [checkRateLimit, h]

lemma checkRateLimit_ok (t : ApiUsageTracker) (h : t.is_exceeded = false) :
    checkRateLimit t = .ok (if t.is_warning then some (rateLimitWarning t) else none) := by
  simp only [checkRateLimit, h, Bool.false_eq_true, if_false]
  cases t.is_warning <;> simp

lemma defaultTracker_not_exceeded : defaultTracker.is_exceeded = false := by decide

lemma defaultTracker_not_warning : defaultTracker.is_warning = false := by
  norm_num [defaultTracker, ApiUsageTracker.is_warning, ApiUsageTracker.usage_percent]

/-- `query` never raises the write-back confirmation signal. -/
lemma query_not_confirmation (u : ApiUsageTracker) (b : BackendResult (List Record))
    (op : String) (d : WriteDetails) :
    (query u b).outcome ≠ Outcome.confirmationRequired op d := by
  rw [query]
  rcases hc : checkRateLimit u with e | w
  · intro h
    exact Outcome.noConfusion h
  · cases b with
    | ok records =>
      intro h
      exact Outcome.noConfusion h
    | err msg =>
      simp only []
      intro h
      split at h <;> first
        | exact Outcome.noConfusion h
        | (split at h <;> first
            | exact Outcome.noConfusion h
            | (split at h <;> exact Outcome.noConfusion h))

/-- No `attributes` key at the top level of a record. -/
def cleanTop (r : Record) : Bool :=
  r.all (fun kv => kv.1 != "attributes")

/-- No `attributes` key in an object element of a nested list. -/
def cleanListItem : Value → Bool
  | .vobj fields => cleanTop fields
  | _ => true

/-- No `attributes` key in the places the `query` normalization touches: a
field value that is an object, or an object element of a field value that is
a list. -/
def cleanFieldValue : Value → Bool
  | .vobj fields => cleanTop fields
  | .varr items => items.all cleanListItem
  | _ => true

/-- No `attributes` key at top level, in directly nested objects, or in
object elements of directly nested lists. -/
def cleanOneLevel (r : Record) : Bool :=
  cleanTop r && r.all (fun kv => cleanFieldValue kv.2)

lemma cleanTop_popKey (r : Record) : cleanTop (popKey "attributes" r) = true := by
  simp only [cleanTop, popKey, List.all_eq_true, List.mem_filter]
  intro kv hkv
  exact hkv.2

lemma popKey_of_cleanTop (r : Record) (h : cleanTop r = true) :
    popKey "attributes" r = r := by
  rw [popKey, List.filter_eq_self]
  simpa [cleanTop, List.all_eq_true] using h

lemma stripListItem_clean (v : Value) : cleanListItem (stripListItem v) = true := by
  cases v <;> simp [stripListItem, cleanListItem, cleanTop_popKey]

lemma stripListItem_of_clean (v : Value) (h : cleanListItem v = true) :
    stripListItem v = v := by
  cases v <;> simp only [stripListItem, cleanListItem] at h ⊢
  exact congrArg Value.vobj (popKey_of_cleanTop _ h)

lemma cleanFieldValue_strip (v : Value) : cleanFieldValue (stripFieldValue v) = true := by
  cases v <;> simp only [stripFieldValue, cleanFieldValue]
  · exact cleanTop_popKey _
  · simp only [List.all_eq_true, List.mem_map]
    rintro x ⟨y, _, rfl⟩
    exact stripListItem_clean y

lemma map_id_of_pointwise {α : Type} (f : α → α) :
    ∀ l : List α, (∀ x ∈ l, f x = x) → l.map f = l
  | [], _ => rfl
  | x :: xs, h => by
    simp only [List.map_cons, h x (List.mem_cons_self x xs)]
    rw [map_id_of_pointwise f xs (fun z hz => h z (List.mem_cons_of_mem x hz))]

lemma stripFieldValue_of_clean (v : Value) (h : cleanFieldValue v = true) :
    stripFieldValue v = v := by
  cases v <;> simp only [stripFieldValue, cleanFieldValue] at h ⊢
  · exact congrArg Value.vobj (popKey_of_cleanTop _ h)
  · exact congrArg Value.varr
      (map_id_of_pointwise _ _ (fun z hz => stripListItem_of_clean z
        (List.all_eq_true.mp h z hz)))

lemma cleanOneLevel_strip (r : Record) : cleanOneLevel (stripRecordDeep r) = true := by
  simp only [cleanOneLevel, stripRecordDeep, Bool.and_eq_true]
  constructor
  · simp only [cleanTop, List.all_eq_true, List.mem_map]
    rintro kv ⟨kv0, hkv0, rfl⟩
    exact List.all_eq_true.mp (cleanTop_popKey r) kv0 hkv0
  · simp only [List.all_eq_true, List.mem_map]
    rintro kv ⟨kv0, _, rfl⟩
    exact cleanFieldValue_strip kv0.2

lemma stripRecordDeep_of_clean (r : Record) (h : cleanOneLevel r = true) :
    stripRecordDeep r = r := by
  simp only [cleanOneLevel, Bool.and_eq_true] at h
  rw [stripRecordDeep, popKey_of_cleanTop r h.1]
  exact map_id_of_pointwise _ r (fun kv hkv => by
    have hv := stripFieldValue_of_clean kv.2 (List.all_eq_true.mp h.2 kv hkv)
    simp [hv])

/-! Claims. -/

/-- Claim C1: a mutating operation (`create_record`, `update_record`) invoked
with `confirmed=false` dispatches no backend call, leaves the usage counter
unchanged, and raises the write-back confirmation signal carrying the
submitted operation kind and the field payload verbatim. -/
theorem unconfirmed_write_short_circuit
    (usage : ApiUsageTracker) (bc : BackendResult CreateResult) (bu : BackendResult Unit)
    (sobject record_id : String) (data : Record) :
    create_record usage bc sobject data false =
      ⟨.confirmationRequired ("create_" ++ strLower sobject) ⟨sobject, none, data⟩,
       usage, 0⟩ ∧
    update_record usage bu sobject record_id data false =
      ⟨.confirmationRequired ("update_" ++ strLower sobject)
         ⟨sobject, some record_id, data⟩, usage, 0⟩ :=
  ⟨rfl, rfl⟩

/-- Claim C2 counterexample: with `daily_limit = 0` the tracker is already
exceeded, yet `create_record` with `confirmed=false` raises the confirmation
signal and no `RATE_LIMIT_EXCEEDED` error — the usage check is not first for
unconfirmed mutating operations. -/
theorem zero_limit_unconfirmed_write_counterexample :
    zeroLimitTracker.is_exceeded = true ∧
    (create_record zeroLimitTracker (.err "unused") "Case"
        [("Subject", Value.vstr "Test")] false).outcome =
      Outcome.confirmationRequired "create_case"
        ⟨"Case", none, [("Subject", Value.vstr "Test")]⟩ ∧
    (create_record zeroLimitTracker (.err "unused") "Case"
        [("Subject", Value.vstr "Test")] false).outcome.errorCode = none := by
  refine ⟨by decide, ?_, rfl⟩
  simp [create_record, strLower, zeroLimitTracker]

/-- Claim C2 (amended): whenever `calls_made >= daily_limit`, read operations
and confirmed mutating operations fail with `RATE_LIMIT_EXCEEDED` before any
backend dispatch, with the tracker unchanged; an unconfirmed mutating
operation instead raises the confirmation signal before the rate-limit check
ever runs. -/
theorem rate_limit_precedence (usage : ApiUsageTracker) (h : usage.is_exceeded = true)
    (bl : BackendResult (List Record)) (br : BackendResult Record)
    (bc : BackendResult CreateResult) (bu : BackendResult Unit)
    (mx : Nat) (sobject record_id : String) (data : Record) :
    query usage bl = ⟨.clientError (rateLimitExceededError usage), usage, 0⟩ ∧
    query_all usage bl mx = ⟨.clientError (rateLimitExceededError usage), usage, 0⟩ ∧
    search usage bl = ⟨.clientError (rateLimitExceededError usage), usage, 0⟩ ∧
    get_record usage br sobject record_id =
      ⟨.clientError (rateLimitExceededError usage), usage, 0⟩ ∧
    create_record usage bc sobject data true =
      ⟨.clientError (rateLimitExceededError usage), usage, 0⟩ ∧
    update_record usage bu sobject record_id data true =
      ⟨.clientError (rateLimitExceededError usage), usage, 0⟩ ∧
    (create_record usage bc sobject data false).outcome =
      .confirmationRequired ("create_" ++ strLower sobject) ⟨sobject, none, data⟩ ∧
    (update_record usage bu sobject record_id data false).outcome =
      .confirmationRequired ("update_" ++ strLower sobject)
        ⟨sobject, some record_id, data⟩ := by
  refine ⟨?_, ?_, ?_, ?_, ?_, ?_, rfl, rfl⟩ <;>
    simp [query, query_all, search, get_record, create_record, update_record,
          checkRateLimit_exceeded usage h]

/-- Witness for the amended claim C2 at the `daily_limit=0` tracker. -/
theorem rate_limit_precedence_witness :
    zeroLimitTracker.is_exceeded = true ∧
    query zeroLimitTracker (.err "x") =
      ⟨.clientError (rateLimitExceededError zeroLimitTracker), zeroLimitTracker, 0⟩ :=
  ⟨by decide,
   (rate_limit_precedence zeroLimitTracker (by decide) (.err "x") (.err "x")
      (.err "x") (.err "x") 2000 "Case" "500X" []).1⟩

/-- Where an operation stands after one attempt: dispatched exactly once with
the call recorded, or short-circuited with the tracker untouched. -/
def UsageAccounted (before : ApiUsageTracker) {α : Type}
    (shortCircuit : Bool) (r : OpResult α) : Prop :=
  if shortCircuit then r.backend_calls = 0 ∧ r.usage = before
  else r.backend_calls = 1 ∧ r.usage = before.record_call

/-- Claim C3: an attempt that reaches backend dispatch records exactly one
call — whether the backend returns success or an application-level error —
and an attempt stopped by the rate-limit check or the confirmation check
records none. -/
theorem usage_accounting (usage : ApiUsageTracker)
    (bl : BackendResult (List Record)) (br : BackendResult Record)
    (bc : BackendResult CreateResult) (bu : BackendResult Unit)
    (mx : Nat) (sobject record_id : String) (data : Record) (confirmed : Bool) :
    UsageAccounted usage usage.is_exceeded (query usage bl) ∧
    UsageAccounted usage usage.is_exceeded (query_all usage bl mx) ∧
    UsageAccounted usage usage.is_exceeded (search usage bl) ∧
    UsageAccounted usage usage.is_exceeded (get_record usage br sobject record_id) ∧
    UsageAccounted usage (!confirmed || usage.is_exceeded)
      (create_record usage bc sobject data confirmed) ∧
    UsageAccounted usage (!confirmed || usage.is_exceeded)
      (update_record usage bu sobject record_id data confirmed) := by
  cases hx : usage.is_exceeded with
  | true =>
    cases confirmed <;>
      simp [UsageAccounted, query, query_all, search, get_record, create_record,
            update_record, checkRateLimit_exceeded usage hx]
  | false =>
    refine ⟨?_, ?_, ?_, ?_, ?_, ?_⟩
    · rw [UsageAccounted, query, checkRateLimit_ok usage hx]
      cases bl <;> simp [hx] <;> try (split_ifs <;> simp)
    · rw [UsageAccounted, query_all, checkRateLimit_ok usage hx]
      cases bl <;> simp [hx] <;> try (split_ifs <;> simp)
    · rw [UsageAccounted, search, checkRateLimit_ok usage hx]
      cases bl <;> simp [hx] <;> try (split_ifs <;> simp)
    · rw [UsageAccounted, get_record, checkRateLimit_ok usage hx]
      cases br <;> simp [hx] <;> try (split_ifs <;> simp)
    · rw [UsageAccounted, create_record]
      cases confirmed
      · simp
      · rw [checkRateLimit_ok usage hx]
        cases bc <;> simp [hx] <;> try (split_ifs <;> simp)
    · rw [UsageAccounted, update_record]
      cases confirmed
      · simp
      · rw [checkRateLimit_ok usage hx]
        cases bu <;> simp [hx] <;> try (split_ifs <;> simp)

/-- Claim C4: with `daily_limit=10` and `warning_threshold=0.8`, after 7
`record_call`s `is_warning` is false; after 8 it is true while `is_exceeded`
is false; after 10 `is_exceeded` is true. Whenever usage is at or past the
threshold while `calls_made` is still below the limit, the pre-call check
returns the non-fatal warning carrying the usage snapshot and the call still
dispatches. -/
theorem usage_band_classification (t : ApiUsageTracker)
    (hw : t.warning_threshold * 100 ≤ t.usage_percent)
    (hc : t.calls_made < t.daily_limit) (bl : BackendResult (List Record)) :
    (recordCalls demoTracker 7).is_warning = false ∧
    (recordCalls demoTracker 8).is_warning = true ∧
    (recordCalls demoTracker 8).is_exceeded = false ∧
    (recordCalls demoTracker 10).is_exceeded = true ∧
    checkRateLimit t = .ok (some (rateLimitWarning t)) ∧
    (rateLimitWarning t).details = t.get_status ∧
    (query t bl).backend_calls = 1 := by
  have hx : t.is_exceeded = false := by
    simp only [ApiUsageTracker.is_exceeded, decide_eq_false_iff_not]
    omega
  have hwb : t.is_warning = true := by
    simpa only [ApiUsageTracker.is_warning, decide_eq_true_eq] using hw
  refine ⟨?_, ?_, ?_, ?_, ?_, rfl, ?_⟩
  · simp only [recordCalls, ApiUsageTracker.record_call, demoTracker]
    norm_num [ApiUsageTracker.is_warning, ApiUsageTracker.usage_percent]
  · simp only [recordCalls, ApiUsageTracker.record_call, demoTracker]
    norm_num [ApiUsageTracker.is_warning, ApiUsageTracker.usage_percent]
  · simp only [recordCalls, ApiUsageTracker.record_call, demoTracker]
    simp [ApiUsageTracker.is_exceeded]
  · simp only [recordCalls, ApiUsageTracker.record_call, demoTracker]
    simp [ApiUsageTracker.is_exceeded]
  · simp [checkRateLimit, hx, hwb]
  · rw [query, checkRateLimit_ok t hx]
    cases bl <;> simp <;> try (split_ifs <;> simp)

/-- Witness for claim C4 at a tracker with 8 of 10 calls made. -/
theorem usage_band_classification_witness :
    (⟨8, 10, 4/5⟩ : ApiUsageTracker).warning_threshold * 100 ≤
      (⟨8, 10, 4/5⟩ : ApiUsageTracker).usage_percent ∧
    (⟨8, 10, 4/5⟩ : ApiUsageTracker).calls_made <
      (⟨8, 10, 4/5⟩ : ApiUsageTracker).daily_limit ∧
    checkRateLimit ⟨8, 10, 4/5⟩ = .ok (some (rateLimitWarning ⟨8, 10, 4/5⟩)) :=
  ⟨by norm_num [ApiUsageTracker.usage_percent], by decide,
   (usage_band_classification ⟨8, 10, 4/5⟩
      (by norm_num [ApiUsageTracker.usage_percent]) (by decide)
      (.ok [])).2.2.2.2.1⟩

/-- Claim C5: a mutating operation submitted with `confirmed=true` while the
quota is not exceeded dispatches exactly one backend call and increments
`calls_made` by exactly 1. -/
theorem confirmed_write_dispatch (usage : ApiUsageTracker)
    (h : usage.is_exceeded = false) (bc : BackendResult CreateResult)
    (bu : BackendResult Unit) (sobject record_id : String) (data : Record) :
    (create_record usage bc sobject data true).backend_calls = 1 ∧
    (create_record usage bc sobject data true).usage.calls_made =
      usage.calls_made + 1 ∧
    (update_record usage bu sobject record_id data true).backend_calls = 1 ∧
    (update_record usage bu sobject record_id data true).usage.calls_made =
      usage.calls_made + 1 := by
  refine ⟨?_, ?_, ?_, ?_⟩
  · rw [create_record]
    simp only [Bool.not_true, Bool.false_eq_true, if_false]
    rw [checkRateLimit_ok usage h]
    cases bc <;> simp [ApiUsageTracker.record_call] <;> try (split_ifs <;> simp)
  · rw [create_record]
    simp only [Bool.not_true, Bool.false_eq_true, if_false]
    rw [checkRateLimit_ok usage h]
    cases bc <;> simp [ApiUsageTracker.record_call] <;>
      try (split_ifs <;> simp [ApiUsageTracker.record_call])
  · rw [update_record]
    simp only [Bool.not_true, Bool.false_eq_true, if_false]
    rw [checkRateLimit_ok usage h]
    cases bu <;> simp [ApiUsageTracker.record_call] <;> try (split_ifs <;> simp)
  · rw [update_record]
    simp only [Bool.not_true, Bool.false_eq_true, if_false]
    rw [checkRateLimit_ok usage h]
    cases bu <;> simp [ApiUsageTracker.record_call] <;>
      try (split_ifs <;> simp [ApiUsageTracker.record_call])

/-- Witness for claim C5 at the default tracker. -/
theorem confirmed_write_dispatch_witness :
    defaultTracker.is_exceeded = false ∧
    (create_record defaultTracker (.ok ⟨"500XXX", true⟩) "Case"
        [("Subject", Value.vstr "Test")] true).backend_calls = 1 :=
  ⟨by decide,
   (confirmed_write_dispatch defaultTracker (by decide) (.ok ⟨"500XXX", true⟩)
      (.ok ()) "Case" "500XXX" [("Subject", Value.vstr "Test")]).1⟩

/-- Claim C6 counterexample: `query_all` classifies a backend error whose
message contains INVALID_SESSION_ID as the catch-all SF_API_ERROR, not as
AUTH_ERROR — the AUTH_ERROR translation is not applied by every dispatching
operation. -/
theorem invalid_session_catchall_counterexample :
    strContains "INVALID_SESSION_ID: Session expired or invalid"
      "INVALID_SESSION_ID" = true ∧
    (query_all defaultTracker (.err "INVALID_SESSION_ID: Session expired or invalid")
        MAX_QUERY_RESULTS).outcome.errorCode = some "SF_API_ERROR" ∧
    (query_all defaultTracker (.err "INVALID_SESSION_ID: Session expired or invalid")
        MAX_QUERY_RESULTS).outcome.errorCode ≠ some "AUTH_ERROR" := by
  refine ⟨by decide, ?_, ?_⟩
  · rw [query_all, checkRateLimit_ok defaultTracker defaultTracker_not_exceeded]
    rfl
  · rw [query_all, checkRateLimit_ok defaultTracker defaultTracker_not_exceeded]
    decide

/-- Claim C6 (amended): only `query` translates a backend error containing
INVALID_SESSION_ID into AUTH_ERROR; `query_all` and `search` classify every
backend error as SF_API_ERROR, `get_record` does so too unless the message
also contains NOT_FOUND, and `create_record` and `update_record` never
translate it to AUTH_ERROR either (their classifiers have no AUTH_ERROR
branch at all). -/
theorem invalid_session_classification (usage : ApiUsageTracker) (msg : String)
    (h : usage.is_exceeded = false)
    (hm : strContains msg "INVALID_SESSION_ID" = true)
    (mx : Nat) (sobject record_id : String) (data : Record) :
    (query usage (.err msg)).outcome.errorCode = some "AUTH_ERROR" ∧
    (query_all usage (.err msg) mx).outcome.errorCode = some "SF_API_ERROR" ∧
    (search usage (.err msg)).outcome.errorCode = some "SF_API_ERROR" ∧
    (strContains msg "NOT_FOUND" = false →
      (get_record usage (.err msg) sobject record_id).outcome.errorCode =
        some "SF_API_ERROR") ∧
    (create_record usage (.err msg) sobject data true).outcome.errorCode ≠
      some "AUTH_ERROR" ∧
    (update_record usage (.err msg) sobject record_id data true).outcome.errorCode ≠
      some "AUTH_ERROR" := by
  refine ⟨?_, ?_, ?_, ?_, ?_, ?_⟩
  · rw [query, checkRateLimit_ok usage h]
    simp [hm, Outcome.errorCode]
  · rw [query_all, checkRateLimit_ok usage h]
    simp [Outcome.errorCode]
  · rw [search, checkRateLimit_ok usage h]
    simp [Outcome.errorCode]
  · intro hn
    rw [get_record, checkRateLimit_ok usage h]
    simp [hn, Outcome.errorCode]
  · rw [create_record]
    simp only [Bool.not_true, Bool.false_eq_true, if_false]
    rw [checkRateLimit_ok usage h]
    by_cases ha : strContains msg "INSUFFICIENT_ACCESS" = true
    · simp [ha, Outcome.errorCode]
    · rw [Bool.not_eq_true] at ha
      simp [ha, Outcome.errorCode]
  · rw [update_record]
    simp only [Bool.not_true, Bool.false_eq_true, if_false]
    rw [checkRateLimit_ok usage h]
    by_cases hnf : strContains msg "NOT_FOUND" = true
    · simp [hnf, Outcome.errorCode]
    · rw [Bool.not_eq_true] at hnf
      by_cases hed : strContains msg "ENTITY_IS_DELETED" = true
      · simp [hnf, hed, Outcome.errorCode]
      · rw [Bool.not_eq_true] at hed
        by_cases ha : strContains msg "INSUFFICIENT_ACCESS" = true
        · simp [hnf, hed, ha, Outcome.errorCode]
        · rw [Bool.not_eq_true] at ha
          simp [hnf, hed, ha, Outcome.errorCode]

/-- Witness for the amended claim C6 at the message "INVALID_SESSION_ID". -/
theorem invalid_session_classification_witness :
    defaultTracker.is_exceeded = false ∧
    strContains "INVALID_SESSION_ID" "INVALID_SESSION_ID" = true ∧
    strContains "INVALID_SESSION_ID" "NOT_FOUND" = false ∧
    (get_record defaultTracker (.err "INVALID_SESSION_ID") "Case"
        "500XXX").outcome.errorCode = some "SF_API_ERROR" ∧
    (update_record defaultTracker (.err "INVALID_SESSION_ID") "Case" "500XXX"
        [] true).outcome.errorCode ≠ some "AUTH_ERROR" :=
  ⟨by decide, by decide, by decide,
   (invalid_session_classification defaultTracker "INVALID_SESSION_ID" (by decide)
      (by decide) 2000 "Case" "500XXX" []).2.2.2.1 (by decide),
   (invalid_session_classification defaultTracker "INVALID_SESSION_ID" (by decide)
      (by decide) 2000 "Case" "500XXX" []).2.2.2.2.2⟩

/-- Claim C9: `query_all` never returns more than `max_results` records
(default `MAX_QUERY_RESULTS = 2000`): a longer backend list is truncated to
exactly the first `max_results` (normalized) records, a shorter one is
returned whole. -/
theorem query_all_caps_results (usage : ApiUsageTracker) (records : List Record)
    (mx : Nat) (h : usage.is_exceeded = false) :
    MAX_QUERY_RESULTS = 2000 ∧
    (records.length ≤ mx →
      (query_all usage (.ok records) mx).outcome =
        .ok (records.map stripRecordTop)) ∧
    (mx < records.length →
      (query_all usage (.ok records) mx).outcome =
        .ok ((records.map stripRecordTop).take mx)) ∧
    (∀ l, (query_all usage (.ok records) mx).outcome = Outcome.ok l →
      l.length ≤ mx) := by
  refine ⟨rfl, ?_, ?_, ?_⟩
  · intro hle
    rw [query_all, checkRateLimit_ok usage h]
    have hnot : ¬ mx < (records.map stripRecordTop).length := by
      simpa using Nat.not_lt.mpr hle
    simp [hnot]
    omega
  · intro hlt
    rw [query_all, checkRateLimit_ok usage h]
    have hyes : mx < (records.map stripRecordTop).length := by simpa using hlt
    simp [hyes]
  · intro l hl
    rw [query_all, checkRateLimit_ok usage h] at hl
    simp only [Outcome.ok.injEq] at hl
    subst hl
    split_ifs with hc
    · simp only [List.length_take]
      omega
    · simp only [List.length_map] at hc ⊢
      omega

/-- Witness for claim C9: three backend records capped at two. -/
theorem query_all_caps_results_witness :
    defaultTracker.is_exceeded = false ∧
    2 < ([[("attributes", Value.vnull), ("Id", Value.vstr "1")], [], []] :
          List Record).length ∧
    (query_all defaultTracker
        (.ok [[("attributes", Value.vnull), ("Id", Value.vstr "1")], [], []])
        2).outcome =
      .ok ((([[("attributes", Value.vnull), ("Id", Value.vstr "1")], [], []] :
          List Record).map stripRecordTop).take 2) :=
  ⟨by decide, by decide,
   (query_all_caps_results defaultTracker
      [[("attributes", Value.vnull), ("Id", Value.vstr "1")], [], []] 2
      (by decide)).2.2.1 (by decide)⟩

/-- Claim C10 counterexample: a message containing INSUFFICIENT_ACCESS
together with NOT_FOUND is classified NOT_FOUND by `update_record`, not
PERMISSION_DENIED — `update_record` checks the NOT_FOUND markers first. -/
theorem insufficient_access_update_counterexample :
    strContains "NOT_FOUND: INSUFFICIENT_ACCESS" "INSUFFICIENT_ACCESS" = true ∧
    (update_record defaultTracker (.err "NOT_FOUND: INSUFFICIENT_ACCESS")
        "Case" "500XXX" [] true).outcome.errorCode = some "NOT_FOUND" ∧
    (update_record defaultTracker (.err "NOT_FOUND: INSUFFICIENT_ACCESS")
        "Case" "500XXX" [] true).outcome.errorCode ≠ some "PERMISSION_DENIED" := by
  have h1 : strContains "NOT_FOUND: INSUFFICIENT_ACCESS" "NOT_FOUND" = true := by
    decide
  refine ⟨by decide, ?_, ?_⟩ <;>
  · rw [update_record]
    simp only [Bool.not_true, Bool.false_eq_true, if_false]
    rw [checkRateLimit_ok defaultTracker defaultTracker_not_exceeded]
    simp [h1, Outcome.errorCode]

/-- Claim C10 (amended): a backend error containing INSUFFICIENT_ACCESS is
AUTH_ERROR in `query` and PERMISSION_DENIED in `create_record`;
`update_record` also maps it to PERMISSION_DENIED provided the message does
not also contain NOT_FOUND or ENTITY_IS_DELETED, which it checks first. -/
theorem insufficient_access_classification (usage : ApiUsageTracker) (msg : String)
    (h : usage.is_exceeded = false)
    (hm : strContains msg "INSUFFICIENT_ACCESS" = true)
    (sobject record_id : String) (data : Record) :
    (query usage (.err msg)).outcome.errorCode = some "AUTH_ERROR" ∧
    (create_record usage (.err msg) sobject data true).outcome.errorCode =
      some "PERMISSION_DENIED" ∧
    (strContains msg "NOT_FOUND" = false →
      strContains msg "ENTITY_IS_DELETED" = false →
      (update_record usage (.err msg) sobject record_id data true).outcome.errorCode =
        some "PERMISSION_DENIED") := by
  refine ⟨?_, ?_, ?_⟩
  · rw [query, checkRateLimit_ok usage h]
    simp [hm, Outcome.errorCode]
  · rw [create_record]
    simp only [Bool.not_true, Bool.false_eq_true, if_false]
    rw [checkRateLimit_ok usage h]
    simp [hm, Outcome.errorCode]
  · intro h1 h2
    rw [update_record]
    simp only [Bool.not_true, Bool.false_eq_true, if_false]
    rw [checkRateLimit_ok usage h]
    simp [hm, h1, h2, Outcome.errorCode]

/-- Witness for the amended claim C10 at the message "INSUFFICIENT_ACCESS". -/
theorem insufficient_access_classification_witness :
    defaultTracker.is_exceeded = false ∧
    strContains "INSUFFICIENT_ACCESS" "INSUFFICIENT_ACCESS" = true ∧
    strContains "INSUFFICIENT_ACCESS" "NOT_FOUND" = false ∧
    (update_record defaultTracker (.err "INSUFFICIENT_ACCESS") "Case" "500XXX"
        [] true).outcome.errorCode = some "PERMISSION_DENIED" :=
  ⟨by decide, by decide, by decide,
   (insufficient_access_classification defaultTracker "INSUFFICIENT_ACCESS"
      (by decide) (by decide) "Case" "500XXX" []).2.2 (by decide) (by decide)⟩

/-- When the summary construction accepts the first record, the tail of
`get_case` returns a payload on every path: the comment fetch swallows
client errors and `query` never raises the confirmation signal. -/
lemma get_case_with_records_cons_ok (vd : Value → Bool) (u1 : ApiUsageTracker)
    (b2 : BackendResult (List Record)) (cid cnum : Option String)
    (r0 : Record) (rest : List Record) (c0 : CaseSummary)
    (hc : recordToCase vd r0 = .ok c0) :
    ∃ v, (get_case_with_records vd u1 b2 cid cnum (r0 :: rest)).fst =
      Except.ok v := by
  rw [get_case_with_records, hc]
  rcases hq2 : query u1 b2 with ⟨o2, t2, n2⟩
  rcases o2 with recs2 | e2 | ⟨op2, d2⟩
  · exact ⟨_, rfl⟩
  · exact ⟨_, rfl⟩
  · have hne := query_not_confirmation u1 b2 op2 d2
    rw [hq2] at hne
    exact absurd rfl hne

/-- Claim C7 counterexample: `search` returns a record with a nested
`attributes` key untouched — the read operations other than `query` strip
only the top level, so the metadata key is not removed from every nested
object of every record returned by the read operations. -/
theorem nested_strip_counterexample :
    cleanOneLevel [("Owner", Value.vobj [("attributes", Value.vnull),
        ("Name", Value.vstr "Acme")])] = false ∧
    (search defaultTracker (.ok [[("Owner", Value.vobj [("attributes", Value.vnull),
        ("Name", Value.vstr "Acme")])]])).outcome =
      Outcome.ok [[("Owner", Value.vobj [("attributes", Value.vnull),
        ("Name", Value.vstr "Acme")])]] := by
  refine ⟨by decide, ?_⟩
  rw [search, checkRateLimit_ok defaultTracker defaultTracker_not_exceeded]
  simp [stripRecordTop, popKey]

/-- Claim C7 (amended): the `query` normalization is idempotent and leaves an
already-clean record unchanged; it strips the metadata key from the top
level, from every directly nested object and from every object element of a
directly nested list. `query_all`, `search` and `get_record` strip only the
top-level key. -/
theorem normalization_idempotent (r r2 : Record) (h : cleanOneLevel r = true) :
    stripRecordDeep r = r ∧
    stripRecordDeep (stripRecordDeep r2) = stripRecordDeep r2 ∧
    cleanOneLevel (stripRecordDeep r2) = true ∧
    cleanTop (stripRecordTop r2) = true :=
  ⟨stripRecordDeep_of_clean r h,
   stripRecordDeep_of_clean _ (cleanOneLevel_strip r2),
   cleanOneLevel_strip r2,
   cleanTop_popKey r2⟩

/-- Witness for the amended claim C7 at a clean record with a nested object. -/
theorem normalization_idempotent_witness :
    cleanOneLevel [("Id", Value.vstr "1"),
      ("Owner", Value.vobj [("Name", Value.vstr "Acme")])] = true ∧
    stripRecordDeep [("Id", Value.vstr "1"),
      ("Owner", Value.vobj [("Name", Value.vstr "Acme")])] =
      [("Id", Value.vstr "1"), ("Owner", Value.vobj [("Name", Value.vstr "Acme")])] :=
  ⟨by decide,
   (normalization_idempotent [("Id", Value.vstr "1"),
      ("Owner", Value.vobj [("Name", Value.vstr "Acme")])] [] (by decide)).1⟩

/-- Claim C8: the tool layer is meant to return a well-formed payload on
every path, but the code lets exceptions escape. `create_task` catches the
confirmation signal under the class name `WriteBackConfirmationRequired`,
which `shared.salesforce_client` does not define (it defines
`WriteBackConfirmationError`, the name `cases.py` and the unit tests use),
so an unconfirmed `create_task` raises to the transport. `get_case` returns
a payload when the backend errors, when no case is found, and when the
summary construction accepts the returned record — but on a backend record
lacking the `Id` key it raises `KeyError`, which no handler catches. -/
theorem create_task_confirmation_escapes :
    activitiesConfirmationHandlerClass ∉ salesforceClientModuleNames ∧
    (create_task defaultTracker (.err "unused") "Follow up" none none none none
        "Normal" false).fst =
      .error (.writeBackConfirmationError "create_task"
        ⟨"Task", none, [("Subject", Value.vstr "Follow up"),
                        ("Priority", Value.vstr "Normal"),
                        ("Status", Value.vstr "Not Started")]⟩) ∧
    (∀ (vd : Value → Bool) (u : ApiUsageTracker)
        (b2 : BackendResult (List Record)) (cid cnum : Option String)
        (e : String),
      ∃ v, (get_case vd u (.err e) b2 cid cnum).fst = Except.ok v) ∧
    (∀ (vd : Value → Bool) (u : ApiUsageTracker)
        (b2 : BackendResult (List Record)) (cid cnum : Option String),
      ∃ v, (get_case vd u (.ok []) b2 cid cnum).fst = Except.ok v) ∧
    (∃ v, (get_case (fun _ => true) defaultTracker
        (.ok [[("Id", Value.vstr "500XXX"), ("CaseNumber", Value.vstr "00012345"),
               ("Subject", Value.vstr "S"), ("Status", Value.vstr "New"),
               ("Priority", Value.vstr "High"),
               ("CreatedDate", Value.vstr "2026-01-01T00:00:00.000+0000")]])
        (.ok []) (some "500XXX") none).fst = Except.ok v) ∧
    (get_case (fun _ => true) defaultTracker
        (.ok [[("CaseNumber", Value.vstr "00012345")]]) (.ok [])
        (some "500XXX") none).fst = Except.error (PyExn.keyError "Id") ∧
    PyExn.className (PyExn.keyError "Id") ≠ "SalesforceClientError" := by
  refine ⟨by decide, ?_, ?_, ?_, ?_, ?_, by decide⟩
  · simp [create_task, create_record, strLower, optField, PyExn.className,
          activitiesConfirmationHandlerClass]
  · intro vd u b2 cid cnum e
    rw [get_case]
    split
    · exact ⟨_, rfl⟩
    · rw [query]
      rcases hc : checkRateLimit u with e2 | w
      · exact ⟨_, rfl⟩
      · simp only []
        split_ifs <;> exact ⟨_, rfl⟩
  · intro vd u b2 cid cnum
    rw [get_case]
    split
    · exact ⟨_, rfl⟩
    · rw [query]
      rcases hc : checkRateLimit u with e2 | w
      · exact ⟨_, rfl⟩
      · exact ⟨_, rfl⟩
  · rw [get_case, if_neg (by decide)]
    rw [query, checkRateLimit_ok defaultTracker defaultTracker_not_exceeded]
    exact get_case_with_records_cons_ok _ _ _ _ _ _ _ _ rfl
  · rw [get_case, if_neg (by decide)]
    rw [query, checkRateLimit_ok defaultTracker defaultTracker_not_exceeded]
    rfl

end SFC


